import Mathlib

/-!
Shallow embedding of src/main.py, a one-shot Crossmint grid client:
a thin API wrapper (delete_object, place_entity), two placement
patterns (Phase1Pattern, Phase2Pattern), a clear-phase reconciler
(delete_all) and the phase detector (detect_phase) with the top-level
script glue.

Network effects are made explicit: remote responses are oracle
functions supplied as arguments (an HTTP status as Option Nat, none
standing for a transport exception), and each operation returns the
trace it produces (endpoints attempted, backoff sleeps, placement and
delete calls issued) instead of performing I/O.
-/

namespace MapPattern

/-- Character-level model of str.startswith: the pattern's character
sequence is a prefix of the string's. -/
def strStartsWith (s pat : String) : Bool :=
  pat.data.isPrefixOf s.data

/-- Character-level model of str.endswith: the pattern's character
sequence is a suffix of the string's. -/
def strEndsWith (s pat : String) : Bool :=
  pat.data.isSuffixOf s.data

/-- Characters before the first underscore, i.e. cell.split("_")[0]. -/
def takeUntilUnderscore : List Char → List Char
  | [] => []
  | c :: cs => if c = '_' then [] else c :: takeUntilUnderscore cs

/-- ASCII lowercasing of one character, as str.lower() acts on the
uppercase ASCII labels of the goal map. -/
def lowerChar (c : Char) : Char :=
  if 'A' ≤ c ∧ c ≤ 'Z' then Char.ofNat (c.toNat + 32) else c

/-- cell.split("_")[0].lower(): the lowercased prefix of the cell label
before the first underscore (the whole label when none occurs). -/
def attrOf (cell : String) : String :=
  String.mk ((takeUntilUnderscore cell.data).map lowerChar)

/-- Grid sizes from the module constants in main.py. -/
def PHASE_1_GRID_SIZE : Nat := 11

def PHASE_2_GRID_SIZE : Nat := 30

/-- A network mutation issued against the remote grid service: either a
delete probe at a coordinate, or a placement call carrying the entity
kind (the endpoint name) and the optional direction/color arguments as
passed to place_entity. -/
inductive NetCall where
  | del (row col : Nat)
  | place (kind : String) (row col : Nat) (direction color : Option String)
deriving DecidableEq

/-- Target coordinate of a network call. -/
def NetCall.target : NetCall → Nat × Nat
  | .del r c => (r, c)
  | .place _ r c _ _ => (r, c)

/-- The three entity-kind endpoints probed by delete_object, in source
order. -/
def delete_endpoints : List String := ["polyanets", "soloons", "comeths"]

/-- Observable outcome of one delete_object invocation: the endpoints
attempted in order, the number of 1-second backoff sleeps, and the
deleted_any boolean it returns. -/
structure DeleteObjectResult where
  attempts : List String
  sleeps : Nat
  deletedAny : Bool
deriving DecidableEq

/-- One iteration of the endpoint loop of delete_object: 200 records a
deletion, 404 is a no-op, any other status or a transport error (none)
sleeps one second.  mirrors main.py lines 26-40. -/
def delete_object_step (resp : String → Option Nat) (acc : DeleteObjectResult)
    (ep : String) : DeleteObjectResult :=
  match resp ep with
  | some code =>
    if code = 200 then ⟨acc.attempts ++ [ep], acc.sleeps, true⟩
    else if code ≠ 404 then ⟨acc.attempts ++ [ep], acc.sleeps + 1, acc.deletedAny⟩
    else ⟨acc.attempts ++ [ep], acc.sleeps, acc.deletedAny⟩
  | none => ⟨acc.attempts ++ [ep], acc.sleeps + 1, acc.deletedAny⟩

/-- CrossmintAPI.delete_object (main.py lines 21-42): folds the
endpoint loop over all three endpoints unconditionally.  resp gives the
remote response per endpoint at this coordinate. -/
def CrossmintAPI.delete_object (resp : String → Option Nat) : DeleteObjectResult :=
  delete_endpoints.foldl (delete_object_step resp) ⟨[], 0, false⟩

/-- Number of backoff sleeps one endpoint response contributes in
delete_object. -/
def sleep_count (r : Option Nat) : Nat :=
  match r with
  | some code => if code = 200 then 0 else if code ≠ 404 then 1 else 0
  | none => 1

/-- Observable outcome of one place_entity invocation: whether a 201
was received (otherwise it logged and gave up), the number of POST
attempts made, and the number of 5-second rate-limit waits. -/
structure PlaceResult where
  success : Bool
  attempts : Nat
  sleeps : Nat
deriving DecidableEq

/-- The retry loop of CrossmintAPI.place_entity (main.py lines 57-71),
with the remote response to the k-th POST given by resp k (none is a
transport exception).  The loop is unbounded in the source; fuel bounds
the number of iterations we unfold, and none means the loop was still
running (only possible on an unbroken run of 429 responses). -/
def place_entity_go (resp : Nat → Option Nat) : Nat → Nat → Option PlaceResult
  | _, 0 => none
  | k, fuel + 1 =>
    match resp k with
    | some code =>
      if code = 201 then some ⟨true, k + 1, k⟩
      else if code = 429 then place_entity_go resp (k + 1) fuel
      else some ⟨false, k + 1, k⟩
    | none => some ⟨false, k + 1, k⟩

/-- CrossmintAPI.place_entity, starting the retry loop at attempt 0. -/
def CrossmintAPI.place_entity (resp : Nat → Option Nat) (fuel : Nat) :
    Option PlaceResult :=
  place_entity_go resp 0 fuel

/-- Phase1Pattern.execute (main.py lines 96-100): for i in
range(2, grid_size - 2), place a polyanet at (i, i) and at
(i, grid_size - 1 - i).  Takes no goal map. -/
def Phase1Pattern.execute (grid_size : Nat) : List NetCall :=
  (List.range' 2 (grid_size - 4)).flatMap fun i =>
    [NetCall.place ("polyanets") i i none none,
     NetCall.place ("polyanets") i (grid_size - 1 - i) none none]

/-- The placement calls one goal-map cell produces in
Phase2Pattern.execute (main.py lines 118-128): SPACE is skipped, a cell
starting with POLYANET places a polyanet, else a cell ending in COMETH
places a cometh whose direction is the lowercased prefix before the
first underscore, else a cell ending in SOLOON places a soloon whose
color is that lowercased prefix; anything else falls through. -/
def phase2_cell_calls (row col : Nat) (cell : String) : List NetCall :=
  if cell = "SPACE" then []
  else if strStartsWith cell ("POLYANET") then
    [NetCall.place ("polyanets") row col none none]
  else if strEndsWith cell ("COMETH") then
    [NetCall.place ("comeths") row col (some (attrOf cell)) none]
  else if strEndsWith cell ("SOLOON") then
    [NetCall.place ("soloons") row col none (some (attrOf cell))]
  else []

/-- Phase2Pattern.execute (main.py lines 110-129): enumerate the goal
map rows and cells in row-major order and emit each cell's calls. -/
def Phase2Pattern.execute (goal : List (List String)) : List NetCall :=
  goal.enum.flatMap fun p => p.2.enum.flatMap fun q =>
    phase2_cell_calls p.1 q.1 q.2

/-- The goal-map cell read by delete_all at (r, c):
goal_map["goal"][r][c].  Out-of-range indices (which raise IndexError
in Python) default to the empty string here; the in-bounds claims are
stated separately. -/
def cellAt (goal : List (List String)) (r c : Nat) : String :=
  (goal.getD r []).getD c ""

/-- any(cell != "SPACE" for row in goal_map["goal"] for cell in row)
(main.py line 134). -/
def any_entities (goal : List (List String)) : Bool :=
  goal.any fun row => row.any fun cell => cell != "SPACE"

/-- The coordinates delete_all probes in each round (main.py lines
142-145): every (r, c) with r, c < grid_size whose goal-map cell is not
SPACE, in row-major order. -/
def delete_all_probes (goal : List (List String)) (grid_size : Nat) :
    List (Nat × Nat) :=
  (List.range grid_size).flatMap fun r =>
    (List.range grid_size).filterMap fun c =>
      if cellAt goal r c ≠ "SPACE" then some (r, c) else none

/-- Whether a round of delete_all reports any deletion: delete_object
is called at every probe and any_deleted is the disjunction of the
results.  resp gives the remote response per round, coordinate and
endpoint. -/
def round_deleted (resp : Nat → Nat → Nat → String → Option Nat)
    (ps : List (Nat × Nat)) (round : Nat) : Bool :=
  ps.any fun p => (CrossmintAPI.delete_object (resp round p.1 p.2)).deletedAny

/-- The while loop of delete_all (main.py lines 139-151), with
fuel = max_attempts - attempt.  Returns the number of rounds executed
and the final value of attempt. -/
def delete_all_go (resp : Nat → Nat → Nat → String → Option Nat)
    (ps : List (Nat × Nat)) : Nat → Nat → Nat × Nat
  | attempt, 0 => (0, attempt)
  | attempt, fuel + 1 =>
    if round_deleted resp ps attempt then
      let r := delete_all_go resp ps (attempt + 1) fuel
      (r.1 + 1, r.2)
    else (1, attempt)

/-- Observable outcome of delete_all: how many probing rounds ran, and
whether the terminal max-attempts-reached message was logged. -/
structure DeleteAllResult where
  rounds : Nat
  exhausted : Bool
deriving DecidableEq

/-- delete_all (main.py lines 132-153): return immediately when the
goal map holds only SPACE, otherwise run up to max_attempts probing
rounds, stopping after the first round that deletes nothing; the
exhausted message fires when the final attempt counter equals
max_attempts. -/
def delete_all (goal : List (List String)) (grid_size max_attempts : Nat)
    (resp : Nat → Nat → Nat → String → Option Nat) : DeleteAllResult :=
  if any_entities goal then
    let r := delete_all_go resp (delete_all_probes goal grid_size) 0 max_attempts
    ⟨r.1, r.2 = max_attempts⟩
  else ⟨0, false⟩

/-- The full sequence of delete probes delete_all issues: each executed
round probes the same goal-map-derived coordinate list. -/
def delete_all_calls (goal : List (List String)) (grid_size max_attempts : Nat)
    (resp : Nat → Nat → Nat → String → Option Nat) : List (Nat × Nat) :=
  (List.range (delete_all goal grid_size max_attempts resp).rounds).flatMap
    fun _ => delete_all_probes goal grid_size

/-- The goal-map index pairs delete_all reads (main.py line 144): every
(r, c) with r, c < grid_size. -/
def delete_all_reads (grid_size : Nat) : List (Nat × Nat) :=
  (List.range grid_size).flatMap fun r =>
    (List.range grid_size).map fun c => (r, c)

/-- detect_phase (main.py lines 156-164): 11 is phase 1, 30 is phase 2,
anything else is undetermined. -/
def detect_phase (grid_size : Nat) : Option Nat :=
  if grid_size = PHASE_1_GRID_SIZE then some 1
  else if grid_size = PHASE_2_GRID_SIZE then some 2
  else none

/-- The network mutations the top-level script (main.py lines 167-188)
issues, given the fetched goal map (none when the fetch failed or the
goal key is absent): on an undetermined phase it logs and exits before
any delete or placement; otherwise it clears with delete_all
(max_attempts defaulting to 5) and then runs the phase's pattern. -/
def main_calls (goal_map : Option (List (List String)))
    (resp : Nat → Nat → Nat → String → Option Nat) : List NetCall :=
  match goal_map with
  | none => []
  | some goal =>
    match detect_phase goal.length with
    | none => []
    | some phase =>
      ((delete_all_calls goal goal.length 5 resp).map fun p => NetCall.del p.1 p.2)
        ++ (if phase = 1 then Phase1Pattern.execute goal.length
            else if phase = 2 then Phase2Pattern.execute goal
            else [])

/-- The remote grid state: each coordinate holds at most one entity,
recorded as the (kind, direction, color) of the placement that created
it. -/
def GridState : Type := Nat × Nat → Option (String × Option String × Option String)

/-- Effect of one network call on the remote grid: a delete empties the
coordinate, a placement occupies it. -/
def apply_call (s : GridState) : NetCall → GridState
  | .del r c => fun p => if p = (r, c) then none else s p
  | .place kind r c dir color =>
      fun p => if p = (r, c) then some (kind, dir, color) else s p

/-- Effect of a call sequence on the remote grid, in order. -/
def apply_calls (s : GridState) (cs : List NetCall) : GridState :=
  cs.foldl apply_call s

/-- The entity a goal-map cell denotes under Phase2Pattern's parsing,
or none for SPACE and unrecognized labels. -/
def cell_parse (cell : String) : Option (String × Option String × Option String) :=
  if cell = "SPACE" then none
  else if strStartsWith cell ("POLYANET") then some ("polyanets", none, none)
  else if strEndsWith cell ("COMETH") then
    some ("comeths", some (attrOf cell), none)
  else if strEndsWith cell ("SOLOON") then
    some ("soloons", none, some (attrOf cell))
  else none

/-- A remote grid state already matching the goal map: every in-range
coordinate holds exactly the entity its goal-map cell denotes. -/
def matches_goal (s : GridState) (goal : List (List String)) : Prop :=
  ∀ r c, r < goal.length → c < (goal.getD r []).length →
    s (r, c) = cell_parse (cellAt goal r c)

/-- Per-endpoint responses for a delete_object witness run: the
polyanet is present (200), the soloon endpoint errors (500), the cometh
endpoint reports not found (404). -/
def respDel : String → Option Nat :=
  fun ep => if ep = "polyanets" then some 200
    else if ep = "soloons" then some 500 else some 404

/-- Responses for a place_entity witness run: two rate limits, then
created. -/
def respPlace : Nat → Option Nat :=
  fun j => if j < 2 then some 429 else some 201

/-- A delete-oracle whose every probe reports not found. -/
def resp404 : Nat → Nat → Nat → String → Option Nat :=
  fun _ _ _ _ => some 404

/-- A goal map used in witness runs. -/
def exGoal : List (List String) :=
  [["POLYANET", "SPACE"], ["SPACE", "BLUE_SOLOON"]]

/-- A remote grid state that already matches exGoal. -/
def exState : GridState :=
  fun p => cell_parse (cellAt exGoal p.1 p.2)

/-- A 2x2 all-SPACE goal map used in witness runs. -/
def exGoalSpace : List (List String) :=
  [["SPACE", "SPACE"], ["SPACE", "SPACE"]]

/- ------------------------------------------------------------------ -/
/- Helper lemmas                                                      -/
/- ------------------------------------------------------------------ -/

/-- Closed form of one step of the delete_object endpoint loop. -/
theorem delete_object_step_eq (resp : String → Option Nat)
    (acc : DeleteObjectResult) (ep : String) :
    delete_object_step resp acc ep =
      ⟨acc.attempts ++ [ep], acc.sleeps + sleep_count (resp ep),
        acc.deletedAny || (resp ep == some 200)⟩ := by
  rcases h : resp ep with _ | code
  · simp [delete_object_step, sleep_count, h]
  · by_cases h200 : code = 200
    · simp [delete_object_step, sleep_count, h, h200]
    · by_cases h404 : code = 404
      · simp [delete_object_step, sleep_count, h, h200, h404]
      · simp [delete_object_step, sleep_count, h, h200, h404]

/-- Closed form of delete_object over the three endpoints. -/
theorem delete_object_eq (resp : String → Option Nat) :
    CrossmintAPI.delete_object resp =
      ⟨delete_endpoints,
        sleep_count (resp ("polyanets")) + sleep_count (resp ("soloons"))
          + sleep_count (resp ("comeths")),
        (resp ("polyanets") == some 200) || (resp ("soloons") == some 200)
          || (resp ("comeths") == some 200)⟩ := by
  simp [CrossmintAPI.delete_object, delete_endpoints, delete_object_step_eq]

/-- If every response is a rate limit, the place_entity loop never
exits. -/
theorem place_entity_go_all_429 (resp : Nat → Option Nat)
    (h : ∀ j, resp j = some 429) :
    ∀ fuel k, place_entity_go resp k fuel = none := by
  intro fuel
  induction fuel with
  | zero => intro k; rfl
  | succ n ih =>
    intro k
    simp [place_entity_go, h k, ih]

/-- The place_entity loop exits at the first non-429 response, with one
5-second sleep per preceding 429 and success exactly on a 201. -/
theorem place_entity_go_first (resp : Nat → Option Nat) :
    ∀ fuel start k, start ≤ k → k < start + fuel →
      (∀ j, start ≤ j → j < k → resp j = some 429) →
      resp k ≠ some 429 →
      place_entity_go resp start fuel = some ⟨resp k == some 201, k + 1, k⟩ := by
  intro fuel
  induction fuel with
  | zero => intro start k h1 h2; omega
  | succ n ih =>
    intro start k h1 h2 hpre hk
    rcases Nat.eq_or_lt_of_le h1 with heq | hlt
    · subst heq
      rcases h : resp start with _ | code
      · simp [place_entity_go, h]
      · by_cases h201 : code = 201
        · simp [place_entity_go, h, h201]
        · have h429 : code ≠ 429 := by
            intro hc; exact hk (by rw [h, hc])
          simp [place_entity_go, h, h201, h429]
    · have hstart : resp start = some 429 := hpre start le_rfl hlt
      have : place_entity_go resp start (n + 1) = place_entity_go resp (start + 1) n := by
        simp [place_entity_go, hstart]
      rw [this]
      exact ih (start + 1) k hlt (by omega)
        (fun j hj1 hj2 => hpre j (by omega) hj2) hk

/- ------------------------------------------------------------------ -/
/- Claim theorems                                                     -/
/- ------------------------------------------------------------------ -/

/-- Claim C5: delete_object attempts all three entity-kind endpoints
unconditionally and exactly once each; a 200 is recorded as a deletion,
a 404 causes no backoff, any other status or a transport error causes
exactly one 1-second backoff for that call and no retry; the returned
boolean is true iff some endpoint answered 200. -/
theorem delete_object_endpoint_semantics (resp : String → Option Nat) :
    (CrossmintAPI.delete_object resp).attempts = delete_endpoints
    ∧ delete_endpoints.Nodup
    ∧ (CrossmintAPI.delete_object resp).sleeps =
        sleep_count (resp ("polyanets")) + sleep_count (resp ("soloons"))
          + sleep_count (resp ("comeths"))
    ∧ sleep_count (some 200) = 0 ∧ sleep_count (some 404) = 0
    ∧ sleep_count none = 1 ∧ (∀ code, code ≠ 200 → code ≠ 404 → sleep_count (some code) = 1)
    ∧ ((CrossmintAPI.delete_object resp).deletedAny = true ↔
        ∃ ep ∈ delete_endpoints, resp ep = some 200) := by
  refine ⟨by rw [delete_object_eq], by decide, by rw [delete_object_eq], by decide,
    by decide, rfl, ?_, ?_⟩
  · intro code h200 h404
    simp [sleep_count, h200, h404]
  · rw [delete_object_eq]
    simp [delete_endpoints, or_assoc]

/-- Witness for C5: on concrete responses (polyanet present, soloon
endpoint failing with 500, cometh absent) delete_object attempts all
three endpoints, sleeps once and reports a deletion. -/
theorem delete_object_endpoint_semantics_witness :
    (CrossmintAPI.delete_object respDel).attempts = delete_endpoints
    ∧ (CrossmintAPI.delete_object respDel).sleeps = 1
    ∧ (CrossmintAPI.delete_object respDel).deletedAny = true := by
  have h := delete_object_endpoint_semantics respDel
  exact ⟨h.1, h.2.2.1.trans (by decide),
    h.2.2.2.2.2.2.2.mpr ⟨"polyanets", by decide, rfl⟩⟩

/-- Claim C6: place_entity returns at the first 201; every 429 causes a
5-second wait and a retry with no bound (on an all-429 stream the loop
never exits, for any amount of fuel); any other status or a transport
exception ends the call without a retry, returning normally rather than
propagating an exception.  The first non-429 response at index k yields
a normal result after k + 1 attempts and k rate-limit sleeps, successful
exactly when that response is a 201. -/
theorem place_entity_retry_semantics (resp : Nat → Option Nat) (k : Nat)
    (hk : ∀ j, j < k → resp j = some 429) (hne : resp k ≠ some 429) :
    (∀ fuel, k < fuel →
      CrossmintAPI.place_entity resp fuel = some ⟨resp k == some 201, k + 1, k⟩)
    ∧ (∀ r2 : Nat → Option Nat, (∀ j, r2 j = some 429) →
        ∀ fuel, CrossmintAPI.place_entity r2 fuel = none) := by
  constructor
  · intro fuel hfuel
    exact place_entity_go_first resp fuel 0 k (Nat.zero_le k) (by omega)
      (fun j _ hj => hk j hj) hne
  · intro r2 h2 fuel
    exact place_entity_go_all_429 r2 h2 fuel 0

/-- Witness for C6: two rate limits followed by a 201 give success
after three attempts and two waits. -/
theorem place_entity_retry_semantics_witness :
    CrossmintAPI.place_entity respPlace 5 = some ⟨true, 3, 2⟩ :=
  (place_entity_retry_semantics respPlace 2 (by decide) (by decide)).1 5 (by decide)

/-- Claim C4: for grid size 11 the synthetic pattern issues exactly
2 * (11 - 4) = 14 placement calls, all polyanets with no direction and
no color, at (i, i) and (i, 10 - i) for each i from 2 to 8 and nowhere
else, and the targeted coordinate multiset is symmetric about the
vertical midline c ↦ 10 - c. -/
theorem phase1_execute_shape :
    Phase1Pattern.execute PHASE_1_GRID_SIZE =
      [NetCall.place ("polyanets") 2 2 none none, NetCall.place ("polyanets") 2 8 none none,
       NetCall.place ("polyanets") 3 3 none none, NetCall.place ("polyanets") 3 7 none none,
       NetCall.place ("polyanets") 4 4 none none, NetCall.place ("polyanets") 4 6 none none,
       NetCall.place ("polyanets") 5 5 none none, NetCall.place ("polyanets") 5 5 none none,
       NetCall.place ("polyanets") 6 6 none none, NetCall.place ("polyanets") 6 4 none none,
       NetCall.place ("polyanets") 7 7 none none, NetCall.place ("polyanets") 7 3 none none,
       NetCall.place ("polyanets") 8 8 none none, NetCall.place ("polyanets") 8 2 none none]
    ∧ (Phase1Pattern.execute PHASE_1_GRID_SIZE).length = 2 * (PHASE_1_GRID_SIZE - 4)
    ∧ ((Phase1Pattern.execute PHASE_1_GRID_SIZE).all fun nc =>
        match nc with
        | NetCall.place kind _ _ dir color =>
            kind == "polyanets" && dir == none && color == none
        | NetCall.del _ _ => false)
    ∧ (((Phase1Pattern.execute PHASE_1_GRID_SIZE).map NetCall.target).all fun p =>
        ((Phase1Pattern.execute PHASE_1_GRID_SIZE).map NetCall.target).contains
          (p.1, 10 - p.2)) := by
  decide

/-- Claim C9: the two diagonals of the synthetic pattern for grid size
11 cross at the center: iteration i = 5 issues both of its calls at
(5, 5), that coordinate alone receives two placement calls, and the 14
calls cover only 13 distinct coordinates. -/
theorem phase1_center_overlap :
    NetCall.place ("polyanets") 5 (PHASE_1_GRID_SIZE - 1 - 5) none none =
      NetCall.place ("polyanets") 5 5 none none
    ∧ (Phase1Pattern.execute PHASE_1_GRID_SIZE).count
        (NetCall.place ("polyanets") 5 5 none none) = 2
    ∧ ((Phase1Pattern.execute PHASE_1_GRID_SIZE).map NetCall.target).count (5, 5) = 2
    ∧ (((Phase1Pattern.execute PHASE_1_GRID_SIZE).map NetCall.target).all fun p =>
        p == (5, 5) || ((Phase1Pattern.execute PHASE_1_GRID_SIZE).map NetCall.target).count p == 1)
    ∧ (((Phase1Pattern.execute PHASE_1_GRID_SIZE).map NetCall.target).dedup).length = 13
    ∧ (Phase1Pattern.execute PHASE_1_GRID_SIZE).length = 14 := by
  decide

/-- Claim C7: detect_phase maps 11 to phase 1, 30 to phase 2 and every
other size to none, and on an undetermined size the script issues no
delete and no placement calls. -/
theorem detect_phase_mapping :
    detect_phase 11 = some 1 ∧ detect_phase 30 = some 2 ∧ detect_phase 12 = none
    ∧ (∀ n, n ≠ 11 → n ≠ 30 → detect_phase n = none)
    ∧ (∀ goal resp, detect_phase goal.length = none →
        main_calls (some goal) resp = []) := by
  refine ⟨rfl, rfl, rfl, ?_, ?_⟩
  · intro n h11 h30
    simp [detect_phase, PHASE_1_GRID_SIZE, PHASE_2_GRID_SIZE, h11, h30]
  · intro goal resp h
    simp [main_calls, h]

/-- Witness for C7: a 12-row goal map leads to an aborted run with no
network mutations. -/
theorem detect_phase_mapping_witness :
    main_calls (some (List.replicate 12 ([] : List String))) resp404 = [] :=
  detect_phase_mapping.2.2.2.2 (List.replicate 12 ([] : List String)) resp404 (by decide)

/-- Claim C1: the goal-map pattern visits cells in row-major order, and
each cell produces exactly the placement calls its label dictates:
SPACE none, a POLYANET-prefixed label one bare polyanet, otherwise a
COMETH-suffixed label one cometh with the lowercased pre-underscore
prefix as direction, otherwise a SOLOON-suffixed label one soloon with
that prefix as color; in particular BLUE_SOLOON, RIGHT_COMETH and
POLYANET behave as stated. -/
theorem phase2_execute_cell_dispatch (goal : List (List String)) (row col : Nat)
    (cell : String) :
    Phase2Pattern.execute goal =
      goal.enum.flatMap (fun p => p.2.enum.flatMap fun q =>
        phase2_cell_calls p.1 q.1 q.2)
    ∧ (cell = "SPACE" → phase2_cell_calls row col cell = [])
    ∧ (strStartsWith cell ("POLYANET") = true →
        phase2_cell_calls row col cell =
          [NetCall.place ("polyanets") row col none none])
    ∧ (strStartsWith cell ("POLYANET") = false →
        strEndsWith cell ("COMETH") = true →
        phase2_cell_calls row col cell =
          [NetCall.place ("comeths") row col (some (attrOf cell)) none])
    ∧ (strStartsWith cell ("POLYANET") = false →
        strEndsWith cell ("COMETH") = false →
        strEndsWith cell ("SOLOON") = true →
        phase2_cell_calls row col cell =
          [NetCall.place ("soloons") row col none (some (attrOf cell))])
    ∧ phase2_cell_calls row col ("BLUE_SOLOON") =
        [NetCall.place ("soloons") row col none (some ("blue"))]
    ∧ phase2_cell_calls row col ("RIGHT_COMETH") =
        [NetCall.place ("comeths") row col (some ("right")) none]
    ∧ phase2_cell_calls row col ("POLYANET") =
        [NetCall.place ("polyanets") row col none none] := by
  refine ⟨rfl, ?_, ?_, ?_, ?_, rfl, rfl, rfl⟩
  · intro h
    simp [phase2_cell_calls, h]
  · intro h
    have hs : cell ≠ "SPACE" := by
      intro he; rw [he] at h; exact absurd h (by decide)
    simp [phase2_cell_calls, hs, h]
  · intro h1 h2
    have hs : cell ≠ "SPACE" := by
      intro he; rw [he] at h2; exact absurd h2 (by decide)
    simp [phase2_cell_calls, hs, h1, h2]
  · intro h1 h2 h3
    have hs : cell ≠ "SPACE" := by
      intro he; rw [he] at h3; exact absurd h3 (by decide)
    simp [phase2_cell_calls, hs, h1, h2, h3]

/-- Witness for C1: the three concrete labels from the claim dispatch
as stated. -/
theorem phase2_execute_cell_dispatch_witness :
    phase2_cell_calls 0 0 ("SPACE") = []
    ∧ phase2_cell_calls 1 2 ("BLUE_SOLOON") =
        [NetCall.place ("soloons") 1 2 none (some ("blue"))]
    ∧ phase2_cell_calls 3 4 ("RIGHT_COMETH") =
        [NetCall.place ("comeths") 3 4 (some ("right")) none]
    ∧ phase2_cell_calls 5 6 ("POLYANET") =
        [NetCall.place ("polyanets") 5 6 none none] :=
  ⟨(phase2_execute_cell_dispatch [] 0 0 ("SPACE")).2.1 rfl,
   (phase2_execute_cell_dispatch [] 1 2 ("BLUE_SOLOON")).2.2.2.2.2.1,
   (phase2_execute_cell_dispatch [] 3 4 ("RIGHT_COMETH")).2.2.2.2.2.2.1,
   (phase2_execute_cell_dispatch [] 5 6 ("POLYANET")).2.2.2.2.2.2.2⟩

/-- Membership in the per-row probe list of delete_all. -/
theorem mem_probe_inner (goal : List (List String)) (grid_size r : Nat)
    (p : Nat × Nat) :
    p ∈ (List.range grid_size).filterMap
        (fun c => if cellAt goal r c ≠ "SPACE" then some (r, c) else none) ↔
      p.1 = r ∧ p.2 < grid_size ∧ cellAt goal r p.2 ≠ "SPACE" := by
  simp only [List.mem_filterMap, List.mem_range, Option.ite_none_right_eq_some,
    Option.some.injEq]
  constructor
  · rintro ⟨c, hc, hcell, hp⟩
    rw [← hp]
    exact ⟨rfl, hc, hcell⟩
  · rintro ⟨h1, h2, h3⟩
    exact ⟨p.2, h2, h3, by rw [← h1]⟩

/-- Claim C2: on an all-SPACE goal map delete_all returns before any
round and issues zero delete calls; otherwise each round probes exactly
the coordinates inside the grid whose goal-map cell is not SPACE, each
exactly once and never a SPACE coordinate, the probe list being derived
from the goal map alone. -/
theorem delete_all_probe_characterization (goal : List (List String))
    (grid_size max_attempts : Nat)
    (resp : Nat → Nat → Nat → String → Option Nat) :
    ((∀ row ∈ goal, ∀ cell ∈ row, cell = "SPACE") →
      delete_all goal grid_size max_attempts resp = ⟨0, false⟩
      ∧ delete_all_calls goal grid_size max_attempts resp = [])
    ∧ (∀ r c : Nat, (r, c) ∈ delete_all_probes goal grid_size ↔
        r < grid_size ∧ c < grid_size ∧ cellAt goal r c ≠ "SPACE")
    ∧ (delete_all_probes goal grid_size).Nodup
    ∧ delete_all_calls goal grid_size max_attempts resp =
        (List.range (delete_all goal grid_size max_attempts resp).rounds).flatMap
          (fun _ => delete_all_probes goal grid_size) := by
  refine ⟨?_, ?_, ?_, rfl⟩
  · intro h
    have hae : any_entities goal = false := by
      rw [any_entities, List.any_eq_false]
      intro row hrow
      rw [Bool.not_eq_true, List.any_eq_false]
      intro cell hcell
      simp only [bne_iff_ne, ne_eq, Decidable.not_not]
      exact h row hrow cell hcell
    constructor
    · simp [delete_all, hae]
    · simp [delete_all_calls, delete_all, hae]
  · intro r c
    simp only [delete_all_probes, List.mem_flatMap, List.mem_range]
    constructor
    · rintro ⟨r2, hr2, hmem⟩
      have h := (mem_probe_inner goal grid_size r2 (r, c)).1 hmem
      have hr : r = r2 := h.1
      subst hr
      exact ⟨hr2, h.2.1, h.2.2⟩
    · rintro ⟨h1, h2, h3⟩
      exact ⟨r, h1, (mem_probe_inner goal grid_size r (r, c)).2 ⟨rfl, h2, h3⟩⟩
  · rw [delete_all_probes, List.nodup_flatMap]
    constructor
    · intro r _
      refine List.Nodup.filterMap ?_ (List.nodup_range grid_size)
      intro a b p hpa hpb
      rw [Option.mem_def] at hpa hpb
      rcases Option.ite_none_right_eq_some.1 hpa with ⟨-, ha⟩
      rcases Option.ite_none_right_eq_some.1 hpb with ⟨-, hb⟩
      have hab : ((r, a) : Nat × Nat) = (r, b) := by
        rw [Option.some.inj ha, Option.some.inj hb]
      exact (Prod.ext_iff.1 hab).2
    · refine (List.pairwise_lt_range grid_size).imp ?_
      intro r1 r2 hlt p hp1 hp2
      have h1 := (mem_probe_inner goal grid_size r1 p).1 hp1
      have h2 := (mem_probe_inner goal grid_size r2 p).1 hp2
      omega

/-- Witness for C2: an all-SPACE 2x2 goal map yields no rounds and no
delete calls. -/
theorem delete_all_probe_characterization_witness :
    delete_all exGoalSpace 2 5 resp404 = ⟨0, false⟩
    ∧ delete_all_calls exGoalSpace 2 5 resp404 = [] :=
  (delete_all_probe_characterization exGoalSpace 2 5 resp404).1 (by decide)

/-- The delete_all loop never executes more rounds than its fuel. -/
theorem delete_all_go_rounds_le (resp : Nat → Nat → Nat → String → Option Nat)
    (ps : List (Nat × Nat)) :
    ∀ fuel attempt, (delete_all_go resp ps attempt fuel).1 ≤ fuel := by
  intro fuel
  induction fuel with
  | zero => intro attempt; exact le_rfl
  | succ n ih =>
    intro attempt
    by_cases h : round_deleted resp ps attempt = true
    · have := ih (attempt + 1)
      simp [delete_all_go, h]
      omega
    · simp [delete_all_go, h]

/-- When every remaining round deletes something, the loop runs its
whole fuel and the attempt counter advances by it. -/
theorem delete_all_go_all_deleting (resp : Nat → Nat → Nat → String → Option Nat)
    (ps : List (Nat × Nat)) :
    ∀ fuel attempt,
      (∀ j, attempt ≤ j → j < attempt + fuel → round_deleted resp ps j = true) →
      delete_all_go resp ps attempt fuel = (fuel, attempt + fuel) := by
  intro fuel
  induction fuel with
  | zero => intro attempt _; rfl
  | succ n ih =>
    intro attempt h
    have h0 : round_deleted resp ps attempt = true := h attempt le_rfl (by omega)
    have hrec := ih (attempt + 1) (fun j hj1 hj2 => h j (by omega) (by omega))
    simp [delete_all_go, h0, hrec]
    omega

/-- The loop stops right after the first round that deletes nothing,
leaving the attempt counter at that round's index. -/
theorem delete_all_go_stops (resp : Nat → Nat → Nat → String → Option Nat)
    (ps : List (Nat × Nat)) :
    ∀ fuel attempt k, attempt ≤ k → k < attempt + fuel →
      round_deleted resp ps k = false →
      (∀ j, attempt ≤ j → j < k → round_deleted resp ps j = true) →
      delete_all_go resp ps attempt fuel = (k + 1 - attempt, k) := by
  intro fuel
  induction fuel with
  | zero => intro attempt k h1 h2; omega
  | succ n ih =>
    intro attempt k h1 h2 hk hpre
    rcases Nat.eq_or_lt_of_le h1 with heq | hlt
    · subst heq
      simp [delete_all_go, hk]
    · have h0 : round_deleted resp ps attempt = true := hpre attempt le_rfl hlt
      have hrec := ih (attempt + 1) k hlt (by omega) hk
        (fun j hj1 hj2 => hpre j (by omega) hj2)
      simp [delete_all_go, h0, hrec]
      omega

/-- Claim C3: delete_all runs at most max_attempts probing rounds and
returns normally; it stops right after the first round reporting no
deletion, with no exhausted message, and when every one of the
max_attempts rounds deletes something it stops after exactly
max_attempts rounds and reports attempts exhausted. -/
theorem delete_all_round_bound (goal : List (List String))
    (grid_size max_attempts : Nat)
    (resp : Nat → Nat → Nat → String → Option Nat) :
    (delete_all goal grid_size max_attempts resp).rounds ≤ max_attempts
    ∧ (∀ k, k < max_attempts → any_entities goal = true →
        round_deleted resp (delete_all_probes goal grid_size) k = false →
        (∀ j, j < k → round_deleted resp (delete_all_probes goal grid_size) j = true) →
        delete_all goal grid_size max_attempts resp = ⟨k + 1, false⟩)
    ∧ (any_entities goal = true →
        (∀ j, j < max_attempts →
          round_deleted resp (delete_all_probes goal grid_size) j = true) →
        delete_all goal grid_size max_attempts resp = ⟨max_attempts, true⟩) := by
  refine ⟨?_, ?_, ?_⟩
  · rw [delete_all]
    by_cases h : any_entities goal = true
    · have := delete_all_go_rounds_le resp (delete_all_probes goal grid_size)
        max_attempts 0
      simp [h]
      omega
    · simp [h]
  · intro k hk hae hstop hpre
    have hgo := delete_all_go_stops resp (delete_all_probes goal grid_size)
      max_attempts 0 k (Nat.zero_le k) (by omega) hstop
      (fun j _ hj => hpre j hj)
    have hne : ¬ (k = max_attempts) := by omega
    rw [delete_all]
    simp [hae, hgo, hne]
  · intro hae hall
    have hgo := delete_all_go_all_deleting resp (delete_all_probes goal grid_size)
      max_attempts 0 (fun j _ hj => hall j (by omega))
    rw [delete_all]
    simp [hae, hgo]

/-- Witness for C3: on a one-polyanet goal map whose probes all come
back 404, the first round deletes nothing, so exactly one round runs
and no exhausted message fires. -/
theorem delete_all_round_bound_witness :
    delete_all [["POLYANET"]] 1 5 resp404 = ⟨1, false⟩ :=
  (delete_all_round_bound [["POLYANET"]] 1 5 resp404).2.1 0 (by decide) (by decide)
    (by decide) (fun j hj => absurd hj (Nat.not_lt_zero j))

/-- A coordinate no call in the sequence targets is left untouched. -/
theorem apply_calls_not_target (cs : List NetCall) :
    ∀ (s : GridState) (p : Nat × Nat), p ∉ cs.map NetCall.target →
      apply_calls s cs p = s p := by
  induction cs with
  | nil => intro s p _; rfl
  | cons c rest ih =>
    intro s p hp
    rw [List.map_cons, List.mem_cons] at hp
    push_neg at hp
    have step : apply_call s c p = s p := by
      cases c with
      | del r col =>
        have : p ≠ (r, col) := hp.1
        simp [apply_call, this]
      | place kind r col dir color =>
        have : p ≠ (r, col) := hp.1
        simp [apply_call, this]
    calc apply_calls (apply_call s c) rest p
        = apply_call s c p := ih (apply_call s c) p hp.2
      _ = s p := step

/-- At its own target, the effect of a call does not depend on the
prior state. -/
theorem apply_call_at_target (c : NetCall) (s t : GridState) :
    apply_call s c (NetCall.target c) = apply_call t c (NetCall.target c) := by
  cases c with
  | del r col => simp [apply_call, NetCall.target]
  | place kind r col dir color => simp [apply_call, NetCall.target]

/-- A coordinate some call targets ends at a value determined by the
call sequence alone, independent of the starting state. -/
theorem apply_calls_at_target (cs : List NetCall) :
    ∀ (s t : GridState) (p : Nat × Nat), p ∈ cs.map NetCall.target →
      apply_calls s cs p = apply_calls t cs p := by
  induction cs with
  | nil => intro s t p hp; exact absurd hp (List.not_mem_nil p)
  | cons c rest ih =>
    intro s t p hp
    by_cases hrest : p ∈ rest.map NetCall.target
    · exact ih (apply_call s c) (apply_call t c) p hrest
    · have hc : p = NetCall.target c := by
        rw [List.map_cons, List.mem_cons] at hp
        exact hp.resolve_right hrest
      calc apply_calls (apply_call s c) rest p
            = apply_call s c p := apply_calls_not_target rest (apply_call s c) p hrest
          _ = apply_call t c p := by rw [hc]; exact apply_call_at_target c s t
          _ = apply_calls (apply_call t c) rest p :=
              (apply_calls_not_target rest (apply_call t c) p hrest).symm

/-- Replaying a call sequence on the grid it already produced changes
nothing. -/
theorem apply_calls_replay (cs : List NetCall) (s : GridState) :
    apply_calls (apply_calls s cs) cs = apply_calls s cs := by
  funext p
  by_cases hp : p ∈ cs.map NetCall.target
  · exact apply_calls_at_target cs (apply_calls s cs) s p hp
  · exact apply_calls_not_target cs (apply_calls s cs) p hp

/-- Claim C8: running the goal-map pattern twice against a remote grid
that already matches the goal map leaves exactly the state one run
leaves, even though the second run reissues every placement call. -/
theorem phase2_idempotent_on_matching_grid (goal : List (List String))
    (s : GridState) (_h : matches_goal s goal) :
    apply_calls (apply_calls s (Phase2Pattern.execute goal))
        (Phase2Pattern.execute goal)
      = apply_calls s (Phase2Pattern.execute goal) :=
  apply_calls_replay (Phase2Pattern.execute goal) s

/-- Witness for C8: a concrete matching grid for exGoal replays the
pattern without observable change. -/
theorem phase2_idempotent_on_matching_grid_witness :
    apply_calls (apply_calls exState (Phase2Pattern.execute exGoal))
        (Phase2Pattern.execute exGoal)
      = apply_calls exState (Phase2Pattern.execute exGoal) :=
  phase2_idempotent_on_matching_grid exGoal exState (fun _ _ _ _ => rfl)

/-- Claim C10: under the precondition that the goal map has at least
grid_size rows, each at least grid_size long, every goal-map read
delete_all performs is in bounds; the top-level caller only makes
grid_size the row count, and a goal map with that row count alone can
still put a read out of bounds. -/
theorem delete_all_reads_in_bounds (goal : List (List String)) (grid_size : Nat)
    (h1 : grid_size ≤ goal.length) (h2 : ∀ row ∈ goal, grid_size ≤ row.length) :
    (∀ p ∈ delete_all_reads grid_size,
      p.1 < goal.length ∧ p.2 < (goal.getD p.1 []).length)
    ∧ (∃ g : List (List String), ∃ q ∈ delete_all_reads g.length,
        ¬ q.2 < (g.getD q.1 []).length) := by
  constructor
  · intro p hp
    have hmem : p.1 < grid_size ∧ p.2 < grid_size := by
      simp only [delete_all_reads, List.mem_flatMap, List.mem_map,
        List.mem_range] at hp
      rcases hp with ⟨r, hr, c, hc, hpc⟩
      rw [← hpc]
      exact ⟨hr, hc⟩
    have hrow : p.1 < goal.length := by omega
    refine ⟨hrow, ?_⟩
    rw [List.getD_eq_getElem goal [] hrow]
    have := h2 (goal[p.1]) (List.getElem_mem hrow)
    omega
  · refine ⟨[[]], (0, 0), ?_, ?_⟩
    · decide
    · decide

/-- Witness for C10: on a square 2x2 goal map every delete_all read is
in bounds, in particular the last one at (1, 1). -/
theorem delete_all_reads_in_bounds_witness :
    1 < exGoalSpace.length ∧ 1 < (exGoalSpace.getD 1 []).length :=
  (delete_all_reads_in_bounds exGoalSpace 2 (by decide) (by decide)).1
    (1, 1) (by decide)

end MapPattern
